import Mathlib

/-!
Shallow embedding of the Telegram department-tag bot (`main.py`).

The bot keeps two Postgres tables, `reparti` (departments, keyed by
`(chat_id, reparto_nome)`) and `membri` (memberships, keyed by
`(chat_id, reparto_nome, user_id)`).  Four command handlers
(`crea_reparto`, `aggiungi_membro`, `rimuovi_membro`, `lista_reparto`)
and one free-text handler (`gestore_messaggi`) operate on them.

The embedding models the database as explicit lists of rows, Python
strings as Lean `String`s, Python `str.lower` as ASCII lowering and the
Python-level control flow of each handler — including the
`try`/`except`/`finally` blocks and the places where the `finally`
block reads the local variable `conn` before it was ever assigned,
which in Python raises `UnboundLocalError`.
-/

namespace TagBot

/-- Python `str.lower()` on a single character (ASCII range, which is all
the bot's own string constants use).  This is exactly `Char.toLower`. -/
def pyLowerChar (c : Char) : Char := c.toLower

/-- Python `str.lower()`: lower every character of the string. -/
def pyLower (s : String) : String := ⟨s.data.map pyLowerChar⟩

/-- Python `needle in hay` substring test (line 239 of `main.py`:
`if reparto_nome in testo_messaggio`). -/
def pyContains (hay needle : String) : Bool := decide (needle.data <:+: hay.data)

/-- Python `s.startswith(pre)` (line 88 of `main.py`). -/
def pyStartsWith (s pre : String) : Bool := pre.data.isPrefixOf s.data

/-- A row of the `reparti` table (`CREATE TABLE reparti`, lines 35-41). -/
structure RepartoRow where
  chat_id : Int
  reparto_nome : String
deriving DecidableEq

/-- A row of the `membri` table (`CREATE TABLE membri`, lines 43-54). -/
structure MembroRow where
  chat_id : Int
  reparto_nome : String
  user_id : Int
  user_name : String
deriving DecidableEq

/-- The database state: both tables, rows kept in insertion order
(the scans below return rows in this order, which is what the code's
unordered `SELECT`s observe). -/
structure DB where
  reparti : List RepartoRow
  membri : List MembroRow
deriving DecidableEq

/-- Key match for a `reparti` row against `(chat_id, reparto_nome)`. -/
def repartoKey (chat : Int) (nome : String) (r : RepartoRow) : Bool :=
  r.chat_id == chat && r.reparto_nome == nome

/-- Key match for a `membri` row against `(chat_id, reparto_nome, user_id)`. -/
def membroKey (chat : Int) (nome : String) (uid : Int) (m : MembroRow) : Bool :=
  m.chat_id == chat && m.reparto_nome == nome && m.user_id == uid

/-- Embeds `INSERT INTO reparti ... ON CONFLICT DO NOTHING` (line 96): append the
row unless a row with the same primary key is already present. -/
def insertReparto (db : DB) (chat : Int) (nome : String) : DB :=
  if db.reparti.any (repartoKey chat nome) then db
  else { db with reparti := db.reparti ++ [⟨chat, nome⟩] }

/-- Embeds `SELECT * FROM reparti WHERE chat_id = ... AND reparto_nome = ...`
followed by `fetchone() is None` (lines 128-129), as an existence test. -/
def repartoEsiste (db : DB) (chat : Int) (nome : String) : Bool :=
  db.reparti.any (repartoKey chat nome)

/-- Embeds `INSERT INTO membri ... ON CONFLICT DO NOTHING` (line 135). -/
def insertMembro (db : DB) (chat : Int) (nome : String) (uid : Int)
    (uname : String) : DB :=
  if db.membri.any (membroKey chat nome uid) then db
  else { db with membri := db.membri ++ [⟨chat, nome, uid, uname⟩] }

/-- Embeds `DELETE FROM membri WHERE ...` (lines 166-169): the new table plus the
number of rows deleted (the `rowcount` of the cursor that ran the delete). -/
def deleteMembro (db : DB) (chat : Int) (nome : String) (uid : Int) :
    DB × Nat :=
  ({ db with membri := db.membri.filter (fun m => !(membroKey chat nome uid m)) },
   (db.membri.filter (membroKey chat nome uid)).length)

/-- Embeds `SELECT reparto_nome FROM reparti WHERE chat_id = ...` (line 234). -/
def selectReparti (db : DB) (chat : Int) : List String :=
  (db.reparti.filter (fun r => r.chat_id == chat)).map (fun r => r.reparto_nome)

/-- Embeds `SELECT user_id, user_name FROM membri WHERE ...` (lines 192-195). -/
def selectMembri (db : DB) (chat : Int) (nome : String) : List (Int × String) :=
  (db.membri.filter (fun m => m.chat_id == chat && m.reparto_nome == nome)).map
    (fun m => (m.user_id, m.user_name))

/-- Embeds `SELECT user_id FROM membri WHERE ...` (lines 245-248). -/
def selectUserIds (db : DB) (chat : Int) (nome : String) : List Int :=
  (db.membri.filter (fun m => m.chat_id == chat && m.reparto_nome == nome)).map
    (fun m => m.user_id)

/-! ## Reply strings

The exact reply texts of `main.py`, as Lean string constants/builders. -/

/-- The admins-only refusal (lines 83, 113, 152). -/
def msgSoloAdmin : String :=
  "Questo comando può essere usato solo dagli admin del gruppo."

/-- Diagnostic sent when the admin-list query fails (line 75). -/
def msgPermessi : String :=
  "Non riesco a verificare i tuoi permessi. Assicurati che io sia admin nel gruppo."

/-- Usage reply of `/crea_reparto` (line 102). -/
def msgUsoCrea : String := "Uso: /crea_reparto @nome_reparto"

/-- Malformed-name reply of `/crea_reparto` (line 89). -/
def msgFormatoErrato : String :=
  "Formato errato. Il nome del reparto deve iniziare con @ (es: /crea_reparto @aero)"

/-- Success reply of `/crea_reparto` (line 100). -/
def msgCreato (nome : String) : String :=
  "Reparto " ++ nome ++ " creato con successo!"

/-- Generic-exception reply of `/crea_reparto` (line 105). -/
def msgCreaErrore (nome : String) : String :=
  "Errore: il reparto " ++ nome ++ " esiste già o c'è stato un problema."

/-- The reply-to-a-user requirement of `/aggiungi_membro` (line 117). -/
def msgRispondiAggiungi : String :=
  "Devi rispondere al messaggio di un utente per aggiungerlo."

/-- Missing-department reply of `/aggiungi_membro` (line 130). -/
def msgNonEsiste (nome : String) : String :=
  "Il reparto " ++ nome ++ " non esiste. Crealo prima con /crea_reparto " ++ nome

/-- Success reply of `/aggiungi_membro` (line 139). -/
def msgAggiunto (uname nome : String) : String :=
  "Utente " ++ uname ++ " aggiunto a " ++ nome ++ "."

/-- Usage reply of `/aggiungi_membro` (line 141). -/
def msgUsoAggiungi : String :=
  "Uso: Rispondi a un utente con /aggiungi_membro @nome_reparto"

/-- Generic-exception reply (lines 144, 179, 212). -/
def msgErroreGenerico : String := "Si è verificato un errore."

/-- The reply-to-a-user requirement of `/rimuovi_membro` (line 156). -/
def msgRispondiRimuovi : String :=
  "Devi rispondere al messaggio di un utente per rimuoverlo."

/-- The was-not-a-member reply of `/rimuovi_membro` (line 172). -/
def msgNonEra (uname nome : String) : String :=
  "L'utente " ++ uname ++ " non era in " ++ nome ++ "."

/-- Success reply of `/rimuovi_membro` (line 174). -/
def msgRimosso (uname nome : String) : String :=
  "Utente " ++ uname ++ " rimosso da " ++ nome ++ "."

/-- Usage reply of `/rimuovi_membro` (line 176). -/
def msgUsoRimuovi : String :=
  "Uso: Rispondi a un utente con /rimuovi_membro @nome_reparto"

/-- Empty-department reply of `/lista_reparto` (line 199). -/
def msgNessunMembro (nome : String) : String :=
  "Nessun membro trovato per il reparto " ++ nome ++ "."

/-- Header of the `/lista_reparto` reply (line 202). -/
def msgMembriHeader (nome : String) : String :=
  "Membri del reparto " ++ nome ++ ":\n"

/-- One member line of the `/lista_reparto` reply
(line 205: `f"- \x7buser_name\x7d ([ID: \x7buser_id\x7d])\n"`). -/
def rigaMembro (p : Int × String) : String :=
  "- " ++ p.2 ++ " ([ID: " ++ toString p.1 ++ "])\n"

/-- Usage reply of `/lista_reparto` (line 209). -/
def msgUsoLista : String := "Uso: /lista_reparto @nome_reparto"

/-- One invisible-mention token of the tag message (line 255). -/
def tagToken (uid : Int) : String :=
  "[\u200B](tg://user?id=" ++ toString uid ++ ")"

/-- The tag message (line 257): header plus space-joined mention tokens. -/
def msgChiamata (nome : String) (uids : List Int) : String :=
  "🔔 Chiamata per " ++ nome ++ ":\n" ++ String.intercalate " " (uids.map tagToken)

/-! ## Python-level handler semantics

Each handler is a pure function from its inputs (the parts of the
Telegram `update`/`context` it reads, plus whether `get_db_connection()`
succeeds, plus the database state) to an outcome: the list of replies it
sent, the resulting database state, and the exception, if any, that
escapes the handler.

Python control-flow details that matter here:
* `context.args` may be `None` (`None[0]` raises `TypeError`), an empty
  list (`[0]` raises `IndexError`) or a list whose head is a non-string
  (`.lower()` raises `AttributeError`).
* In all four handlers the local `conn` is first assigned inside the
  `try`, *after* `context.args[0]` is read; when that read raises, the
  `finally: if conn: conn.close()` block reads an unassigned local and
  raises `UnboundLocalError`, which escapes the handler.
* In `crea_reparto` the generic `except Exception` reply interpolates
  `reparto_nome`, which is unassigned when `.lower()` raised
  `AttributeError`; the f-string itself then raises and no reply is sent.
-/

/-- The Python exceptions that can escape or steer a handler. -/
inductive PyExc where
  | typeError
  | indexError
  | attributeError
  | unboundLocalError
deriving DecidableEq

/-- A value in `context.args`: a string, or any non-string object. -/
inductive PyArg where
  | str (s : String)
  | nonStr
deriving DecidableEq

/-- The observable outcome of one handler run. -/
structure Esito where
  replies : List String
  db : DB
  raised : Option PyExc
deriving DecidableEq

/-- The `psycopg2` rowcount of a freshly created cursor on which no
`execute` was ever run: documented to be `-1`.  Line 171 reads
`conn.cursor().rowcount`, i.e. the rowcount of such a fresh cursor,
not of the cursor that executed the `DELETE`. -/
def freshCursorRowcount : Int := -1

/-- Handler helper `is_admin` (lines 64-76): pair of (returned boolean, replies sent).
`chatType` is the Telegram chat-type string; `adminsQuery` is the result
of `get_chat_administrators`, already projected to the admin user ids
(line 71), or an error when that call raised. -/
def is_admin (chatType : String) (user_id : Int)
    (adminsQuery : Except Unit (List Int)) : Bool × List String :=
  if chatType == "private" then (true, [])
  else
    match adminsQuery with
    | .ok admin_ids => (admin_ids.contains user_id, [])
    | .error _ => (false, [msgPermessi])

/-- Handler `crea_reparto` (lines 80-108).  `admin` is the value returned by
`is_admin`; `args` is `context.args`; `connOk` is whether
`get_db_connection()` returned a connection rather than `None`. -/
def crea_reparto (admin : Bool) (args : Option (List PyArg)) (chat_id : Int)
    (connOk : Bool) (db : DB) : Esito :=
  if !admin then { replies := [msgSoloAdmin], db := db, raised := none }
  else
    match args with
    | none =>
      { replies := [msgUsoCrea], db := db, raised := some .unboundLocalError }
    | some [] =>
      { replies := [msgUsoCrea], db := db, raised := some .unboundLocalError }
    | some (.nonStr :: _) =>
      { replies := [], db := db, raised := some .unboundLocalError }
    | some (.str s :: _) =>
      let reparto_nome := pyLower s
      if !(pyStartsWith reparto_nome "@") then
        { replies := [msgFormatoErrato], db := db,
          raised := some .unboundLocalError }
      else if !connOk then
        { replies := [msgCreaErrore reparto_nome], db := db, raised := none }
      else
        { replies := [msgCreato reparto_nome],
          db := insertReparto db chat_id reparto_nome, raised := none }

/-- Handler `aggiungi_membro` (lines 110-147).  `hasReply` is whether the command
message is a reply to another message; `target_id`/`target_name` identify
`update.message.reply_to_message.from_user`. -/
def aggiungi_membro (admin : Bool) (hasReply : Bool)
    (args : Option (List PyArg)) (chat_id : Int) (target_id : Int)
    (target_name : String) (connOk : Bool) (db : DB) : Esito :=
  if !admin then { replies := [msgSoloAdmin], db := db, raised := none }
  else if !hasReply then
    { replies := [msgRispondiAggiungi], db := db, raised := none }
  else
    match args with
    | none =>
      { replies := [msgUsoAggiungi], db := db,
        raised := some .unboundLocalError }
    | some [] =>
      { replies := [msgUsoAggiungi], db := db,
        raised := some .unboundLocalError }
    | some (.nonStr :: _) =>
      { replies := [msgErroreGenerico], db := db,
        raised := some .unboundLocalError }
    | some (.str s :: _) =>
      let reparto_nome := pyLower s
      if !connOk then
        { replies := [msgErroreGenerico], db := db, raised := none }
      else if !(repartoEsiste db chat_id reparto_nome) then
        { replies := [msgNonEsiste reparto_nome], db := db, raised := none }
      else
        { replies := [msgAggiunto target_name reparto_nome],
          db := insertMembro db chat_id reparto_nome target_id target_name,
          raised := none }

/-- Handler `rimuovi_membro` (lines 149-182).  Note line 171: the success/failure
branch tests `conn.cursor().rowcount`, the rowcount of a *fresh* cursor
(`freshCursorRowcount = -1`), never the rowcount of the cursor that ran
the `DELETE`. -/
def rimuovi_membro (admin : Bool) (hasReply : Bool)
    (args : Option (List PyArg)) (chat_id : Int) (target_id : Int)
    (target_name : String) (connOk : Bool) (db : DB) : Esito :=
  if !admin then { replies := [msgSoloAdmin], db := db, raised := none }
  else if !hasReply then
    { replies := [msgRispondiRimuovi], db := db, raised := none }
  else
    match args with
    | none =>
      { replies := [msgUsoRimuovi], db := db,
        raised := some .unboundLocalError }
    | some [] =>
      { replies := [msgUsoRimuovi], db := db,
        raised := some .unboundLocalError }
    | some (.nonStr :: _) =>
      { replies := [msgErroreGenerico], db := db,
        raised := some .unboundLocalError }
    | some (.str s :: _) =>
      let reparto_nome := pyLower s
      if !connOk then
        { replies := [msgErroreGenerico], db := db, raised := none }
      else
        let res := deleteMembro db chat_id reparto_nome target_id
        if freshCursorRowcount == 0 then
          { replies := [msgNonEra target_name reparto_nome], db := res.1,
            raised := none }
        else
          { replies := [msgRimosso target_name reparto_nome], db := res.1,
            raised := none }

/-- Handler `lista_reparto` (lines 184-215).  No admin check.  The message is
accumulated exactly as the Python loop does: a fold appending one
`rigaMembro` line per member to the header. -/
def lista_reparto (args : Option (List PyArg)) (chat_id : Int)
    (connOk : Bool) (db : DB) : Esito :=
  match args with
  | none =>
    { replies := [msgUsoLista], db := db, raised := some .unboundLocalError }
  | some [] =>
    { replies := [msgUsoLista], db := db, raised := some .unboundLocalError }
  | some (.nonStr :: _) =>
    { replies := [msgErroreGenerico], db := db,
      raised := some .unboundLocalError }
  | some (.str s :: _) =>
    let reparto_nome := pyLower s
    if !connOk then
      { replies := [msgErroreGenerico], db := db, raised := none }
    else
      let membri := selectMembri db chat_id reparto_nome
      if membri.isEmpty then
        { replies := [msgNessunMembro reparto_nome], db := db, raised := none }
      else
        { replies :=
            [membri.foldl (fun m p => m ++ rigaMembro p)
              (msgMembriHeader reparto_nome)],
          db := db, raised := none }

/-- The scan loop of `gestore_messaggi` (lines 237-241): the first
registered department whose name occurs in the message text, else `none`. -/
def findPrimoReparto (reparti : List String) (testo : String) : Option String :=
  match reparti with
  | [] => none
  | r :: rest => if pyContains testo r then some r else findPrimoReparto rest testo

/-- The `PRIMARY KEY (chat_id, reparto_nome)` constraint of the `reparti`
table (line 39): no two stored rows share the key. -/
def repartiPK (db : DB) : Prop :=
  (db.reparti.map (fun r => (r.chat_id, r.reparto_nome))).Nodup

instance (db : DB) : Decidable (repartiPK db) := by
  unfold repartiPK; infer_instance

/-- Number of stored `reparti` rows with the given key. -/
def countReparto (db : DB) (chat : Int) (nome : String) : Nat :=
  (db.reparti.filter (repartoKey chat nome)).length

/-- Concatenation of the per-member `/lista_reparto` lines, in member order. -/
def righeMembri (l : List (Int × String)) : String :=
  match l with
  | [] => ""
  | p :: rest => rigaMembro p ++ righeMembri rest

/-- Handler `gestore_messaggi` (lines 219-265): pair of (database after the run,
replies sent).  `testo` is `update.message.text` (`none` models a missing
message or missing text; the empty string is falsy in Python and is also
ignored by line 221). -/
def gestore_messaggi (testo : Option String) (chat_id : Int) (connOk : Bool)
    (db : DB) : DB × List String :=
  match testo with
  | none => (db, [])
  | some t =>
    if t == "" then (db, [])
    else
      let testo_messaggio := pyLower t
      if !connOk then (db, [])
      else
        let reparti_registrati := selectReparti db chat_id
        match findPrimoReparto reparti_registrati testo_messaggio with
        | none => (db, [])
        | some reparto_da_taggare =>
          let membri_da_taggare := selectUserIds db chat_id reparto_da_taggare
          if membri_da_taggare.isEmpty then (db, [])
          else (db, [msgChiamata reparto_da_taggare membri_da_taggare])

/-! ## Helper lemmas -/

/-- Unfolding equation for `Char.toLower` (its `let` zeta-reduced). -/
theorem tl_unfold (c : Char) :
    Char.toLower c
      = if c.toNat ≥ 65 ∧ c.toNat ≤ 90 then Char.ofNat (c.toNat + 32) else c := rfl

/-- Lowering a character twice is the same as lowering it once. -/
theorem pyLowerChar_idem (c : Char) :
    pyLowerChar (pyLowerChar c) = pyLowerChar c := by
  unfold pyLowerChar
  by_cases h : c.toNat ≥ 65 ∧ c.toNat ≤ 90
  · rw [tl_unfold c, if_pos h]
    obtain ⟨h1, h2⟩ := h
    generalize hg : Char.toNat c = n at h1 h2
    interval_cases n <;> decide
  · rw [tl_unfold c, if_neg h]
    exact (tl_unfold c).trans (if_neg h)

/-- Python `str.lower` is idempotent. -/
theorem pyLower_idem (s : String) : pyLower (pyLower s) = pyLower s := by
  show (⟨(s.data.map pyLowerChar).map pyLowerChar⟩ : String) = ⟨s.data.map pyLowerChar⟩
  congr 1
  rw [List.map_map]
  exact List.map_congr_left (fun c _ => pyLowerChar_idem c)

/-- The scan loop returns the head of the sublist of matching departments:
first-match in storage return order. -/
theorem findPrimo_eq_head (l : List String) (t : String) :
    findPrimoReparto l t = (l.filter (fun r => pyContains t r)).head? := by
  induction l with
  | nil => rfl
  | cons r rest ih =>
    by_cases h : pyContains t r
    · rw [List.filter_cons_of_pos h]
      simp [findPrimoReparto, h]
    · rw [List.filter_cons_of_neg (by simpa using h)]
      simp [findPrimoReparto, h, ih]

/-- Case analysis of `gestore_messaggi` on a non-empty text with a live
database connection. -/
theorem gestore_cases (t : String) (chat : Int) (db : DB)
    (ht : (t == "") = false) :
    gestore_messaggi (some t) chat true db
      = match findPrimoReparto (selectReparti db chat) (pyLower t) with
        | none => (db, [])
        | some rep =>
          if (selectUserIds db chat rep).isEmpty then (db, [])
          else (db, [msgChiamata rep (selectUserIds db chat rep)]) := by
  simp [gestore_messaggi, ht]

/-- With no database connection the scanner does nothing. -/
theorem gestore_no_conn (t : String) (chat : Int) (db : DB) :
    gestore_messaggi (some t) chat false db = (db, []) := by
  cases hb : (t == "") with
  | true => simp [gestore_messaggi, hb]
  | false => simp [gestore_messaggi, hb]

/-- The scanner never touches the database state. -/
theorem gestore_frame (testo : Option String) (chat : Int) (connOk : Bool)
    (db : DB) : (gestore_messaggi testo chat connOk db).1 = db := by
  rcases testo with _ | t
  · rfl
  · cases hb : (t == "") with
    | true => simp [gestore_messaggi, hb]
    | false =>
      cases connOk with
      | false => simp [gestore_messaggi, hb]
      | true =>
        rw [gestore_cases t chat db hb]
        cases hm : findPrimoReparto (selectReparti db chat) (pyLower t) with
        | none => rfl
        | some rep => dsimp only; split <;> rfl

/-- The scanner sends at most one reply. -/
theorem gestore_len (testo : Option String) (chat : Int) (connOk : Bool)
    (db : DB) : (gestore_messaggi testo chat connOk db).2.length ≤ 1 := by
  rcases testo with _ | t
  · simp [gestore_messaggi]
  · cases hb : (t == "") with
    | true => simp [gestore_messaggi, hb]
    | false =>
      cases connOk with
      | false => simp [gestore_messaggi, hb]
      | true =>
        rw [gestore_cases t chat db hb]
        cases hm : findPrimoReparto (selectReparti db chat) (pyLower t) with
        | none => simp
        | some rep => dsimp only; split <;> simp

/-- Boolean key match, spelled out. -/
theorem repartoKey_iff (chat : Int) (nome : String) (r : RepartoRow) :
    repartoKey chat nome r = true ↔ r.chat_id = chat ∧ r.reparto_nome = nome := by
  simp [repartoKey]

/-- After an insert the department exists. -/
theorem esiste_insertReparto (db : DB) (chat : Int) (nome : String) :
    repartoEsiste (insertReparto db chat nome) chat nome = true := by
  unfold insertReparto repartoEsiste
  by_cases h : db.reparti.any (repartoKey chat nome) = true
  · rw [if_pos h]; exact h
  · rw [if_neg h]
    simp [List.any_append, repartoKey]

/-- Inserting an existing department changes nothing (`ON CONFLICT DO
NOTHING`). -/
theorem insertReparto_noop (db : DB) (chat : Int) (nome : String)
    (h : repartoEsiste db chat nome = true) : insertReparto db chat nome = db := by
  unfold repartoEsiste at h
  unfold insertReparto
  rw [if_pos h]

/-- Inserting preserves the primary-key constraint. -/
theorem insertReparto_pk (db : DB) (chat : Int) (nome : String)
    (hpk : repartiPK db) : repartiPK (insertReparto db chat nome) := by
  unfold insertReparto
  by_cases h : db.reparti.any (repartoKey chat nome) = true
  · rw [if_pos h]; exact hpk
  · rw [if_neg h]
    unfold repartiPK at hpk ⊢
    rw [List.map_append, List.nodup_append]
    refine ⟨hpk, List.nodup_singleton _, ?_⟩
    intro p hp hq
    simp only [List.map_cons, List.map_nil, List.mem_singleton] at hq
    subst hq
    rcases List.mem_map.mp hp with ⟨r, hr, hkey⟩
    apply h
    rw [List.any_eq_true]
    refine ⟨r, hr, ?_⟩
    rw [repartoKey_iff]
    exact ⟨congrArg Prod.fst hkey, congrArg Prod.snd hkey⟩

/-- Under the primary-key constraint, a key that is present is held by
exactly one row. -/
theorem filter_repartoKey_len (l : List RepartoRow) (chat : Int) (nome : String)
    (hnd : (l.map (fun r => (r.chat_id, r.reparto_nome))).Nodup)
    (h : l.any (repartoKey chat nome) = true) :
    (l.filter (repartoKey chat nome)).length = 1 := by
  induction l with
  | nil => simp at h
  | cons a l ih =>
    rw [List.map_cons, List.nodup_cons] at hnd
    by_cases ha : repartoKey chat nome a = true
    · rw [List.filter_cons_of_pos ha]
      have hkey := (repartoKey_iff chat nome a).mp ha
      have hnil : l.filter (repartoKey chat nome) = [] := by
        rw [List.filter_eq_nil_iff]
        intro b hb hbk
        have hkb := (repartoKey_iff chat nome b).mp hbk
        exact hnd.1 (List.mem_map.mpr ⟨b, hb, by rw [hkb.1, hkb.2, hkey.1, hkey.2]⟩)
      rw [hnil]
      rfl
    · rw [List.filter_cons_of_neg (by simpa using ha)]
      apply ih hnd.2
      rcases List.any_eq_true.mp h with ⟨x, hx, hpx⟩
      rcases List.mem_cons.mp hx with rfl | hxl
      · exact absurd hpx ha
      · exact List.any_eq_true.mpr ⟨x, hxl, hpx⟩

/-- The success path of `crea_reparto`: admin, well-formed name, live
connection. -/
theorem crea_success (s : String) (chat : Int) (db : DB)
    (hs : pyStartsWith (pyLower s) "@" = true) :
    crea_reparto true (some [.str s]) chat true db
      = { replies := [msgCreato (pyLower s)],
          db := insertReparto db chat (pyLower s), raised := none } := by
  simp [crea_reparto, hs]

/-- The Python accumulation loop of `lista_reparto` concatenates one line
per member after the initial string. -/
theorem foldl_riga (l : List (Int × String)) (init : String) :
    l.foldl (fun m p => m ++ rigaMembro p) init = init ++ righeMembri l := by
  induction l generalizing init with
  | nil => simp [righeMembri]
  | cons a l ih =>
    rw [List.foldl_cons, ih, righeMembri, String.append_assoc]

/-! ## Claims -/

/-- C1: the remove-member handler does NOT let the caller distinguish the
two outcomes.  Line 171 reads the rowcount of a freshly opened cursor,
which is `-1`, never `0`, so the handler replies with the "rimosso da"
success message even when zero rows were deleted: on a database where
user 7 is not a member of `@aero`, the delete removes zero rows yet the
reply is the success message; in general the reply is always the success
message, whatever the database contents. -/
theorem c1_rimozione_non_distinta :
    (deleteMembro ⟨[⟨1, "@aero"⟩], []⟩ 1 (pyLower "@aero") 7).2 = 0
    ∧ (rimuovi_membro true true (some [.str "@aero"]) 1 7 "Bob" true
        ⟨[⟨1, "@aero"⟩], []⟩).replies = [msgRimosso "Bob" "@aero"]
    ∧ (∀ (s tname : String) (chat tid : Int) (db : DB),
        (rimuovi_membro true true (some [.str s]) chat tid tname true db).replies
          = [msgRimosso tname (pyLower s)]) := by
  refine ⟨by decide, by decide, fun s tname chat tid db => ?_⟩
  simp [rimuovi_membro, freshCursorRowcount]

/-- C2: on a missing first argument the handler does reply with its usage
message, but it does NOT terminate normally: the `finally` block then
evaluates `if conn:` with the local `conn` never assigned, raising
`UnboundLocalError` out of the handler.  Shown for `lista_reparto` with
empty args and with `args = None`, and for `crea_reparto` with empty
args, for every chat, connection state and database. -/
theorem c2_uso_poi_eccezione (chat : Int) (connOk : Bool) (db : DB) :
    lista_reparto (some []) chat connOk db
      = { replies := [msgUsoLista], db := db,
          raised := some PyExc.unboundLocalError }
    ∧ crea_reparto true (some []) chat connOk db
      = { replies := [msgUsoCrea], db := db,
          raised := some PyExc.unboundLocalError }
    ∧ lista_reparto none chat connOk db
      = { replies := [msgUsoLista], db := db,
          raised := some PyExc.unboundLocalError } :=
  ⟨rfl, rfl, rfl⟩

/-- C3 counterexample: the member line is "- Bob ([ID: 7])", with square
brackets around "ID: 7", not "- Bob (ID: 7)" as the claim states. -/
theorem c3_formato_contro :
    (lista_reparto (some [.str "@aero"]) 1 true
        ⟨[⟨1, "@aero"⟩], [⟨1, "@aero", 7, "Bob"⟩]⟩).replies
      = ["Membri del reparto @aero:\n- Bob ([ID: 7])\n"]
    ∧ "Membri del reparto @aero:\n- Bob ([ID: 7])\n"
      ≠ "Membri del reparto @aero:\n- Bob (ID: 7)\n" :=
  ⟨by decide, by decide⟩

/-- C3 (amended): for every department with a non-empty member list the
list-members reply is the header followed by one line per member in
return order, each formatted "- <displayName> ([ID: <userId>])". -/
theorem c3_righe_membri (s : String) (chat : Int) (db : DB)
    (h : (selectMembri db chat (pyLower s)).isEmpty = false) :
    lista_reparto (some [.str s]) chat true db
      = { replies := [msgMembriHeader (pyLower s)
            ++ righeMembri (selectMembri db chat (pyLower s))],
          db := db, raised := none } := by
  simp [lista_reparto, h, foldl_riga]

/-- C3 witness: the amended statement at a concrete database. -/
theorem c3_righe_membri_witness :
    lista_reparto (some [.str "@aero"]) 1 true
        ⟨[⟨1, "@aero"⟩], [⟨1, "@aero", 7, "Bob"⟩]⟩
      = { replies := [msgMembriHeader (pyLower "@aero")
            ++ righeMembri (selectMembri ⟨[⟨1, "@aero"⟩], [⟨1, "@aero", 7, "Bob"⟩]⟩
                  1 (pyLower "@aero"))],
          db := ⟨[⟨1, "@aero"⟩], [⟨1, "@aero", 7, "Bob"⟩]⟩, raised := none } :=
  c3_righe_membri "@aero" 1 ⟨[⟨1, "@aero"⟩], [⟨1, "@aero", 7, "Bob"⟩]⟩ (by decide)

/-- C4: the scan selects exactly the first department (in storage return
order) whose name is a substring of the lowered text — it equals the head
of the matching sublist; the scanner sends at most one reply; and on the
spec's two-department example ("@aero" and "@naval" both present in one
message) exactly the first one, "@aero", is notified. -/
theorem c4_primo_match :
    (∀ (l : List String) (t : String),
       findPrimoReparto l t = (l.filter (fun r => pyContains t r)).head?)
    ∧ (∀ (testo : Option String) (chat : Int) (connOk : Bool) (db : DB),
       (gestore_messaggi testo chat connOk db).2.length ≤ 1)
    ∧ gestore_messaggi (some "serve @aero e @naval") 1 true
        ⟨[⟨1, "@aero"⟩, ⟨1, "@naval"⟩],
         [⟨1, "@aero", 7, "Bob"⟩, ⟨1, "@naval", 8, "Eva"⟩]⟩
        = (⟨[⟨1, "@aero"⟩, ⟨1, "@naval"⟩],
            [⟨1, "@aero", 7, "Bob"⟩, ⟨1, "@naval", 8, "Eva"⟩]⟩,
           [msgChiamata "@aero" [7]]) :=
  ⟨findPrimo_eq_head, gestore_len, by decide⟩

/-- C5: creating the same department twice never errors and leaves exactly
one stored row for the key.  Both runs reply with the success message and
raise nothing, the second run leaves the database of the first run
unchanged, and under the primary-key constraint the final database holds
exactly one row with that `(chat, name)` key. -/
theorem c5_crea_idempotente (s : String) (chat : Int) (db : DB)
    (hs : pyStartsWith (pyLower s) "@" = true) (hpk : repartiPK db) :
    crea_reparto true (some [.str s]) chat true db
      = { replies := [msgCreato (pyLower s)],
          db := insertReparto db chat (pyLower s), raised := none }
    ∧ crea_reparto true (some [.str s]) chat true (insertReparto db chat (pyLower s))
      = { replies := [msgCreato (pyLower s)],
          db := insertReparto db chat (pyLower s), raised := none }
    ∧ countReparto (insertReparto db chat (pyLower s)) chat (pyLower s) = 1 := by
  refine ⟨crea_success s chat db hs, ?_, ?_⟩
  · rw [crea_success s chat _ hs,
      insertReparto_noop _ _ _ (esiste_insertReparto db chat (pyLower s))]
  · exact filter_repartoKey_len _ _ _
      (insertReparto_pk db chat (pyLower s) hpk)
      (esiste_insertReparto db chat (pyLower s))

/-- C5 witness: creating "@Aero" twice in an empty database. -/
theorem c5_crea_idempotente_witness :
    crea_reparto true (some [.str "@Aero"]) 1 true ⟨[], []⟩
      = { replies := [msgCreato (pyLower "@Aero")],
          db := insertReparto ⟨[], []⟩ 1 (pyLower "@Aero"), raised := none }
    ∧ crea_reparto true (some [.str "@Aero"]) 1 true
        (insertReparto ⟨[], []⟩ 1 (pyLower "@Aero"))
      = { replies := [msgCreato (pyLower "@Aero")],
          db := insertReparto ⟨[], []⟩ 1 (pyLower "@Aero"), raised := none }
    ∧ countReparto (insertReparto ⟨[], []⟩ 1 (pyLower "@Aero")) 1 (pyLower "@Aero")
      = 1 :=
  c5_crea_idempotente "@Aero" 1 ⟨[], []⟩ (by decide) (by decide)

/-- C6: adding a member to a department that does not exist replies with
the "does not exist, create it first" message, leaves the database
unchanged, and terminates normally. -/
theorem c6_aggiungi_reparto_mancante (s : String) (chat tid : Int)
    (tname : String) (db : DB)
    (h : repartoEsiste db chat (pyLower s) = false) :
    aggiungi_membro true true (some [.str s]) chat tid tname true db
      = { replies := [msgNonEsiste (pyLower s)], db := db, raised := none } := by
  simp [aggiungi_membro, h]

/-- C6 witness: adding to "@aero" in an empty database. -/
theorem c6_aggiungi_reparto_mancante_witness :
    aggiungi_membro true true (some [.str "@aero"]) 1 7 "Bob" true ⟨[], []⟩
      = { replies := [msgNonEsiste (pyLower "@aero")], db := ⟨[], []⟩,
          raised := none } :=
  c6_aggiungi_reparto_mancante "@aero" 1 7 "Bob" ⟨[], []⟩ (by decide)

/-- C7: tag matching is invariant under the letter case of the message:
a department matches the text exactly when it matches the lower-cased
text (lowering is idempotent), and the concrete department "@aero"
matches a message containing "@AERO". -/
theorem c7_match_case_insensitive :
    (∀ (d t : String),
       pyContains (pyLower t) d = pyContains (pyLower (pyLower t)) d)
    ∧ pyContains (pyLower "serve @AERO subito") "@aero" = true :=
  ⟨fun d t => by rw [pyLower_idem], by decide⟩

/-- C8: the scanner sends no reply when no registered department name is a
substring of the lowered message, and none when the matched department has
zero members. -/
theorem c8_nessuna_risposta (t : String) (chat : Int) (connOk : Bool) (db : DB) :
    (findPrimoReparto (selectReparti db chat) (pyLower t) = none →
      (gestore_messaggi (some t) chat connOk db).2 = [])
    ∧ (∀ rep, findPrimoReparto (selectReparti db chat) (pyLower t) = some rep →
        selectUserIds db chat rep = [] →
        (gestore_messaggi (some t) chat connOk db).2 = []) := by
  constructor
  · intro h
    cases hb : (t == "") with
    | true => simp [gestore_messaggi, hb]
    | false =>
      cases connOk with
      | false => rw [gestore_no_conn]
      | true => rw [gestore_cases t chat db hb, h]
  · intro rep hrep hempty
    cases hb : (t == "") with
    | true => simp [gestore_messaggi, hb]
    | false =>
      cases connOk with
      | false => rw [gestore_no_conn]
      | true =>
        rw [gestore_cases t chat db hb, hrep]
        simp [hempty]

/-- C8 witness: a non-matching message, and a matching message whose
department has no members, both produce no reply. -/
theorem c8_nessuna_risposta_witness :
    (gestore_messaggi (some "ciao a tutti") 1 true ⟨[⟨1, "@aero"⟩], []⟩).2 = []
    ∧ (gestore_messaggi (some "serve @aero subito") 1 true
        ⟨[⟨1, "@aero"⟩], []⟩).2 = [] :=
  ⟨(c8_nessuna_risposta "ciao a tutti" 1 true ⟨[⟨1, "@aero"⟩], []⟩).1 (by decide),
   (c8_nessuna_risposta "serve @aero subito" 1 true ⟨[⟨1, "@aero"⟩], []⟩).2
     "@aero" (by decide) (by decide)⟩

/-- C9: the authorization check is always authorized in a private chat; in
any non-private chat it is authorized exactly when the user id is in the
administrator list; and when the administrator query fails it is
unauthorized and sends the make-me-admin diagnostic. -/
theorem c9_is_admin_policy :
    (∀ (u : Int) (q : Except Unit (List Int)), is_admin "private" u q = (true, []))
    ∧ (∀ (ct : String) (u : Int) (l : List Int), ct ≠ "private" →
        is_admin ct u (Except.ok l) = (l.contains u, []))
    ∧ (∀ (ct : String) (u : Int), ct ≠ "private" →
        is_admin ct u (Except.error ()) = (false, [msgPermessi])) := by
  refine ⟨fun u q => rfl, fun ct u l h => ?_, fun ct u h => ?_⟩ <;> simp [is_admin, h]

/-- C9 witness: group chat with user 5 in/out of the admin list, and a
failing query. -/
theorem c9_is_admin_policy_witness :
    is_admin "group" 5 (Except.ok [5]) = (true, [])
    ∧ is_admin "group" 9 (Except.ok [5]) = (false, [])
    ∧ is_admin "group" 5 (Except.error ()) = (false, [msgPermessi]) :=
  ⟨(c9_is_admin_policy.2.1 "group" 5 [5] (by decide)).trans (by decide),
   (c9_is_admin_policy.2.1 "group" 9 [5] (by decide)).trans (by decide),
   c9_is_admin_policy.2.2 "group" 5 (by decide)⟩

/-- C10: the tag scanner never modifies the store: for every inbound
message the resulting database equals the initial one. -/
theorem c10_scanner_frame (testo : Option String) (chat : Int) (connOk : Bool)
    (db : DB) : (gestore_messaggi testo chat connOk db).1 = db :=
  gestore_frame testo chat connOk db

end TagBot
